import Mathlib

/-!
Verification development for the on-device signing daemon
(`ondevice-signing/odsign_main.cpp`).

The daemon's protocol steps are shallowly embedded here:
pure helpers become Lean functions, filesystem and subprocess effects
become explicit state passing over small state records, and outcomes of
external collaborators (the keystore, the compiler subprocess, the
CompOs verifier subprocess, certificate primitives) are supplied by
oracle environments, one field per call site.  Cryptographic primitives
that live outside this repository (signing, certificate verification,
protobuf serialization) are modelled by concrete executable functions
that keep exactly the properties the daemon relies on (determinism and
injectivity of signatures over message bytes, round-tripping of
serialization).
-/

namespace Odsign

/-- Byte strings are lists of naturals. -/
abbrev Bytes := List Nat

/-- A digest map sends an absolute file path to a hex-encoded digest.
`std::map` iteration order and key uniqueness are irrelevant to the
properties proved here, so an association list suffices. -/
abbrev DigestMap := List (String × String)

/-- The odrefresh exit codes (`art::odrefresh::ExitCode`); the subprocess
exit status is cast to this enum, so unknown statuses are carried by
`kUnexpected`. -/
inductive ExitCode where
  | kOkay
  | kCompilationRequired
  | kCompilationSuccess
  | kCompilationFailed
  | kCleanupFailed
  | kUnexpected (code : Nat)
deriving DecidableEq, Repr

/-- Which CompOs instance is being examined (`enum class CompOsInstance`). -/
inductive CompOsInstance where
  | kCurrent
  | kPending
deriving DecidableEq, Repr

/-- Model of the keystore signing key: the key is identified by its public
key bytes.  `getPublicKey` is modelled as total. -/
structure SigningKey where
  pub : Bytes
deriving DecidableEq, Repr

/-- Idealized deterministic signature: signing binds the exact message
bytes to the key.  This keeps the two properties the daemon relies on:
the signature verifies under the signer's public key, and two distinct
messages never share a signature under the same key. -/
def SigningKey.sign (k : SigningKey) (message : Bytes) : Bytes :=
  k.pub ++ message

/-- Model of `verifySignature(message, signature, publicKey)`. -/
def verifySignature (message signature publicKey : Bytes) : Bool :=
  signature == publicKey ++ message

/-- Length-prefixed encoding of a string into bytes. -/
def encodeStr (s : String) : Bytes :=
  s.length :: s.data.map Char.toNat

/-- Inverse of `encodeStr`; consumes one encoded string off the front. -/
def decodeStr : Bytes → Option (String × Bytes)
  | [] => none
  | n :: rest =>
    if n ≤ rest.length then
      some (String.mk ((rest.take n).map Char.ofNat), rest.drop n)
    else none

/-- Body of the serialized `OdsignInfo` protobuf: the entries in order. -/
def serializeEntries : DigestMap → Bytes
  | [] => []
  | (p, d) :: rest => encodeStr p ++ encodeStr d ++ serializeEntries rest

/-- Executable model of `OdsignInfo::SerializeToOstream`: an injective
encoding of the digest map into bytes (entry count, then entries). -/
def serializeInfo (m : DigestMap) : Bytes :=
  m.length :: serializeEntries m

/-- Decode `count` entries off the front of the bytes. -/
def parseEntries : Nat → Bytes → Option (DigestMap × Bytes)
  | 0, rest => some ([], rest)
  | k + 1, bytes =>
    match decodeStr bytes with
    | none => none
    | some (p, r1) =>
      match decodeStr r1 with
      | none => none
      | some (d, r2) =>
        match parseEntries k r2 with
        | none => none
        | some (m, r3) => some ((p, d) :: m, r3)

/-- Executable model of `OdsignInfo::ParseFromIstream`: fails unless the
bytes are exactly a serialized digest map. -/
def parseInfo : Bytes → Option DigestMap
  | [] => none
  | n :: rest =>
    match parseEntries n rest with
    | some (m, []) => some m
    | _ => none

theorem decodeStr_encodeStr (s : String) (r : Bytes) :
    decodeStr (encodeStr s ++ r) = some (s, r) := by
  cases s with
  | mk data =>
    simp [encodeStr, decodeStr, String.length, List.take_left', List.drop_left',
      Function.comp_def, Char.ofNat_toNat]

theorem parseEntries_serializeEntries (m : DigestMap) (r : Bytes) :
    parseEntries m.length (serializeEntries m ++ r) = some (m, r) := by
  induction m generalizing r with
  | nil => simp [serializeEntries, parseEntries]
  | cons hd tl ih =>
    obtain ⟨p, d⟩ := hd
    simp [serializeEntries, parseEntries, List.append_assoc,
      decodeStr_encodeStr, ih]

/-- Serialization round-trips: parsing the serialized bytes of a digest
map recovers the map exactly. -/
theorem parseInfo_serializeInfo (m : DigestMap) :
    parseInfo (serializeInfo m) = some m := by
  have h := parseEntries_serializeEntries m []
  simp at h
  simp [serializeInfo, parseInfo, h]

/-- Embedding of `verifyDigests` (odsign_main.cpp:310): walk the computed
digests; a path missing from the trusted map or a differing value is an
error; an empty computed map succeeds vacuously. -/
def verifyDigests : DigestMap → DigestMap → Except String Unit
  | [], _ => .ok ()
  | (path, digest) :: rest, trusted =>
    match trusted.lookup path with
    | none => .error ("Could not find digest for " ++ path)
    | some td =>
      if td ≠ digest then .error ("Digest mismatch for " ++ path)
      else verifyDigests rest trusted

/-- The two manifest files `odsign.info` and `odsign.info.signature`;
`none` models a file whose read/open fails. -/
structure OdsignFs where
  dataFile : Option Bytes
  sigFile : Option Bytes
deriving DecidableEq, Repr

/-- Embedding of `getOdsignInfo` (odsign_main.cpp:350): read the
signature file, open the data file, verify the signature over the data
file's exact bytes under the signing key's public key, and only then
deserialize. -/
def getOdsignInfo (key : SigningKey) (fs : OdsignFs) : Except String DigestMap :=
  match fs.sigFile with
  | none => .error "Failed to read odsign.info.signature"
  | some persistedSignature =>
    match fs.dataFile with
    | none => .error "Failed to open odsign.info"
    | some odsignInfoStr =>
      if verifySignature odsignInfoStr persistedSignature key.pub then
        match parseInfo odsignInfoStr with
        | none => .error "Failed to parse odsign.info"
        | some m => .ok m
      else .error "odsign.info.signature does not match"

/-- Failure-injection oracle for the three fallible operations inside
`persistDigests`: `SerializeToOstream`, `key.sign`, and the final
`WriteStringToFile` of the signature (whose result the code ignores). -/
structure PersistEnv where
  serializeOk : Bool
  signOk : Bool
  sigWriteOk : Bool
deriving DecidableEq, Repr

/-- Embedding of `persistDigests` (odsign_main.cpp:384): opening the
fstream with `trunc` clears the data file before anything else; then the
map is serialized into it, the written bytes are re-read and signed, and
the signature is written to the sibling file.  The boolean result of the
signature write is discarded by the source (line 405), so a failed
signature write still yields a success return with the signature file
left unchanged. -/
def persistDigests (digests : DigestMap) (key : SigningKey) (env : PersistEnv)
    (fs : OdsignFs) : Except String Unit × OdsignFs :=
  let fs0 : OdsignFs := { fs with dataFile := some [] }
  if ¬ env.serializeOk then
    (.error "Failed to persist root hashes in odsign.info", fs0)
  else
    let written := serializeInfo digests
    let fs1 : OdsignFs := { fs0 with dataFile := some written }
    if ¬ env.signOk then
      (.error "Failed to sign odsign.info", fs1)
    else
      if env.sigWriteOk then
        (.ok (), { fs1 with sigFile := some (key.sign written) })
      else
        (.ok (), fs1)

/-- Setting index `i` of a list to a value different from the one stored
there yields a different list. -/
theorem set_ne_of_getElem_ne {l : List Nat} {i b : Nat} (hi : i < l.length)
    (hb : b ≠ l[i]) : l.set i b ≠ l := by
  intro he
  have hlen : i < (l.set i b).length := by simpa using hi
  have hgo : (l.set i b)[i] = l[i] := by
    simp [he]
  rw [List.getElem_set_self hlen] at hgo
  exact hb hgo

/-- C7: `verifyDigests computed trusted` succeeds exactly when every
path in `computed` has a matching key in `trusted` with an identical
digest value; it succeeds vacuously when `computed` is empty, and
entries of `trusted` without a counterpart in `computed` are never
checked (the right-hand side constrains only entries of `computed`). -/
theorem verifyDigests_ok_iff (computed trusted : DigestMap) :
    verifyDigests computed trusted = .ok () ↔
      ∀ p d, (p, d) ∈ computed → trusted.lookup p = some d := by
  induction computed with
  | nil => simp [verifyDigests]
  | cons hd rest ih =>
    obtain ⟨p, d⟩ := hd
    simp only [verifyDigests]
    cases h : trusted.lookup p with
    | none =>
      constructor
      · intro hok; exact absurd hok (by simp)
      · intro hall
        have hp := hall p d (by simp)
        rw [h] at hp
        exact absurd hp (by simp)
    | some td =>
      by_cases hdd : td = d
      · subst hdd
        simp only [ne_eq, not_true_eq_false, if_false, ih]
        constructor
        · intro hr p' d' hmem
          rcases List.mem_cons.mp hmem with he | hm
          · rw [Prod.mk.injEq] at he
            rw [he.1, he.2]
            exact h
          · exact hr p' d' hm
        · intro hall p' d' hm
          exact hall p' d' (List.mem_cons_of_mem _ hm)
      · simp only [ne_eq, hdd, not_false_eq_true, if_true]
        constructor
        · intro hok; exact absurd hok (by simp)
        · intro hall
          have hp := hall p d (by simp)
          rw [h] at hp
          exact absurd hp (by simp [hdd])

/-- An `Except.error` result is never `isOk`. -/
theorem error_isOk_false {α β : Type} (e : α) :
    (Except.error e : Except α β).isOk = false := rfl

/-- C6: `getOdsignInfo` returns an error (never a map) when the
signature file read fails, when the data file open fails, when the
signature does not verify over the data file's exact bytes, and when
deserialization fails after a successful verification; and flipping any
byte of a persisted data file or of its signature file makes the whole
load fail. -/
theorem getOdsignInfo_fail_closed (key : SigningKey) (m : DigestMap)
    (dataOpt sigOpt : Option Bytes) (data sig : Bytes) (i b : Nat) :
    (getOdsignInfo key ⟨dataOpt, none⟩).isOk = false ∧
    (getOdsignInfo key ⟨none, sigOpt⟩).isOk = false ∧
    (verifySignature data sig key.pub = false →
      (getOdsignInfo key ⟨some data, some sig⟩).isOk = false) ∧
    (parseInfo data = none →
      (getOdsignInfo key ⟨some data, some (key.sign data)⟩).isOk = false) ∧
    (∀ hi : i < (serializeInfo m).length, b ≠ (serializeInfo m)[i] →
      (getOdsignInfo key ⟨some ((serializeInfo m).set i b),
        some (key.sign (serializeInfo m))⟩).isOk = false) ∧
    (∀ hi : i < (key.sign (serializeInfo m)).length,
      b ≠ (key.sign (serializeInfo m))[i] →
      (getOdsignInfo key ⟨some (serializeInfo m),
        some ((key.sign (serializeInfo m)).set i b)⟩).isOk = false) := by
  refine ⟨by simp [getOdsignInfo, error_isOk_false], ?_, ?_, ?_, ?_, ?_⟩
  · cases sigOpt <;> simp [getOdsignInfo, error_isOk_false]
  · intro hv
    simp [getOdsignInfo, hv, error_isOk_false]
  · intro hp
    simp [getOdsignInfo, verifySignature, SigningKey.sign, hp, error_isOk_false]
  · intro hi hb
    have hne : (serializeInfo m).set i b ≠ serializeInfo m :=
      set_ne_of_getElem_ne hi hb
    have hv : verifySignature ((serializeInfo m).set i b)
        (key.sign (serializeInfo m)) key.pub = false := by
      simp only [verifySignature, SigningKey.sign, beq_eq_false_iff_ne, ne_eq]
      intro hcontra
      exact hne (List.append_cancel_left hcontra).symm
    simp [getOdsignInfo, hv, error_isOk_false]
  · intro hi hb
    have hne : (key.sign (serializeInfo m)).set i b ≠ key.sign (serializeInfo m) :=
      set_ne_of_getElem_ne hi hb
    have hv : verifySignature (serializeInfo m)
        ((key.sign (serializeInfo m)).set i b) key.pub = false := by
      simp only [verifySignature, SigningKey.sign, beq_eq_false_iff_ne, ne_eq]
      intro hcontra
      exact hne hcontra
    simp [getOdsignInfo, hv, error_isOk_false]

/-- Witness for C6 at concrete inputs: key `[1]`, empty digest map,
tampering the single byte of the serialized map and the first byte of
its signature. -/
theorem getOdsignInfo_fail_closed_witness :
    (getOdsignInfo ⟨[1]⟩ ⟨none, none⟩).isOk = false ∧
    (getOdsignInfo ⟨[1]⟩ ⟨some [9], some [3]⟩).isOk = false ∧
    (getOdsignInfo ⟨[1]⟩
      ⟨some [9], some (SigningKey.sign ⟨[1]⟩ [9])⟩).isOk = false ∧
    (getOdsignInfo ⟨[1]⟩ ⟨some ((serializeInfo []).set 0 5),
      some (SigningKey.sign ⟨[1]⟩ (serializeInfo []))⟩).isOk = false ∧
    (getOdsignInfo ⟨[1]⟩ ⟨some (serializeInfo []),
      some ((SigningKey.sign ⟨[1]⟩ (serializeInfo [])).set 0 5)⟩).isOk = false := by
  have h := getOdsignInfo_fail_closed ⟨[1]⟩ [] none none [9] [3] 0 5
  exact ⟨h.1, h.2.2.1 (by decide), h.2.2.2.1 (by decide),
    h.2.2.2.2.1 (by decide) (by decide), h.2.2.2.2.2 (by decide) (by decide)⟩

/-- C10: `persistDigests` returns success even when the write of the
signature file fails, leaving the signature file unchanged while the
data file holds the new serialized map; only serialization failure and
signing failure produce an error. -/
theorem persistDigests_ignores_sig_write (m : DigestMap) (key : SigningKey)
    (fs : OdsignFs) :
    (persistDigests m key ⟨true, true, false⟩ fs).1 = .ok () ∧
    (persistDigests m key ⟨true, true, false⟩ fs).2.sigFile = fs.sigFile ∧
    (persistDigests m key ⟨true, true, false⟩ fs).2.dataFile
      = some (serializeInfo m) ∧
    (∀ env : PersistEnv, env.serializeOk = false →
      (persistDigests m key env fs).1 =
        .error "Failed to persist root hashes in odsign.info") ∧
    (∀ env : PersistEnv, env.serializeOk = true → env.signOk = false →
      (persistDigests m key env fs).1 = .error "Failed to sign odsign.info") := by
  refine ⟨by simp [persistDigests], by simp [persistDigests],
    by simp [persistDigests], ?_, ?_⟩
  · intro env h1
    simp [persistDigests, h1]
  · intro env h1 h2
    simp [persistDigests, h1, h2]

/-- Witness for C10 at concrete inputs. -/
theorem persistDigests_ignores_sig_write_witness :
    (persistDigests [] ⟨[2]⟩ ⟨true, true, false⟩ ⟨some [7], some [8]⟩).1 = .ok () ∧
    (persistDigests [] ⟨[2]⟩ ⟨true, true, false⟩ ⟨some [7], some [8]⟩).2.sigFile
      = some [8] ∧
    (persistDigests [] ⟨[2]⟩ ⟨false, true, true⟩ ⟨some [7], some [8]⟩).1 =
      .error "Failed to persist root hashes in odsign.info" ∧
    (persistDigests [] ⟨[2]⟩ ⟨true, false, true⟩ ⟨some [7], some [8]⟩).1 =
      .error "Failed to sign odsign.info" := by
  have h := persistDigests_ignores_sig_write [] ⟨[2]⟩ ⟨some [7], some [8]⟩
  exact ⟨h.1, h.2.1, h.2.2.2.1 ⟨false, true, true⟩ rfl,
    h.2.2.2.2 ⟨true, false, true⟩ rfl rfl⟩

/-- C8 counterexample: with the signature-file write failing (an outcome
the source discards) and no previous signature file, `persistDigests`
reports success, yet the subsequent `getOdsignInfo` with the same key
fails, so success of `persistDigests` alone does not guarantee the
round trip. -/
theorem persistDigests_roundTrip_cex :
    (persistDigests [] ⟨[7]⟩ ⟨true, true, false⟩ ⟨none, none⟩).1 = .ok () ∧
    (getOdsignInfo ⟨[7]⟩
      (persistDigests [] ⟨[7]⟩ ⟨true, true, false⟩ ⟨none, none⟩).2).isOk = false :=
  ⟨rfl, rfl⟩

/-- C8 (amended): if `persistDigests M K` succeeds and the write of the
signature file itself succeeded, then `getOdsignInfo K` on the resulting
files succeeds and returns exactly M, because the signature is computed
over the literal serialized bytes written to the data file. -/
theorem persistDigests_roundTrip (m : DigestMap) (key : SigningKey)
    (env : PersistEnv) (fs fs' : OdsignFs)
    (hw : env.sigWriteOk = true)
    (h : persistDigests m key env fs = (.ok (), fs')) :
    getOdsignInfo key fs' = .ok m := by
  by_cases h1 : env.serializeOk
  · by_cases h2 : env.signOk
    · simp only [persistDigests, h1, h2, hw, not_true_eq_false, if_false,
        if_true, Prod.mk.injEq, true_and] at h
      rw [← h]
      simp [getOdsignInfo, verifySignature, SigningKey.sign,
        parseInfo_serializeInfo]
    · simp [persistDigests, h1, h2] at h
  · simp [persistDigests, h1] at h

/-- Witness for C8 (amended) at concrete inputs. -/
theorem persistDigests_roundTrip_witness :
    getOdsignInfo ⟨[7]⟩
      (persistDigests [] ⟨[7]⟩ ⟨true, true, true⟩ ⟨none, none⟩).2 = .ok [] :=
  persistDigests_roundTrip [] ⟨[7]⟩ ⟨true, true, true⟩ ⟨none, none⟩ _ rfl rfl

/-- Subject fields extracted from an X.509 leaf certificate. -/
structure CertInfo where
  subjectCn : String
  subjectRsaPublicKey : Bytes
deriving DecidableEq, Repr

/-- A stored certificate: its subject info plus the public key under
which its signature verifies (idealized model of X.509 signatures). -/
structure StoredCert where
  info : CertInfo
  signerPub : Bytes
deriving DecidableEq, Repr

/-- The fixed CompOs certificate subject CN (`kCompOsSubject.commonName`
from CertUtils). -/
def kCompOsSubjectCn : String := "CompOs signing key"

/-- Model of `verifyAndExtractCertInfoFromX509`: succeeds exactly when
the certificate's signature verifies under the trusted public key. -/
def verifyAndExtractCertInfoFromX509 (cert : StoredCert)
    (trustedPublicKey : Bytes) : Except String CertInfo :=
  if cert.signerPub = trustedPublicKey then .ok cert.info
  else .error "certificate signature verification failed"

/-- Embedding of `extractRsaPublicKeyFromLeafCert` (odsign_main.cpp:183):
requires the certificate file to exist, verifies it under the signing
key's public key, and checks the subject CN against the expected one. -/
def extractRsaPublicKeyFromLeafCert (key : SigningKey)
    (cert : Option StoredCert) (expectedCn : String) : Except String Bytes :=
  match cert with
  | none => .error "Certificate not found"
  | some c =>
    match verifyAndExtractCertInfoFromX509 c key.pub with
    | .error e => .error ("Failed to verify certificate: " ++ e)
    | .ok info =>
      if info.subjectCn ≠ expectedCn then
        .error "CN of existing certificate does not match"
      else .ok info.subjectRsaPublicKey

/-- Oracle environment for one run of the CompOs key-verification
protocol: readability of the two public key files, exit status of the
verifier subprocess for each instance, the cached certificate file, the
bytes of the current public key file, and the outcome of
leaf-certificate creation. -/
structure CompOsKeyEnv where
  pendingKeyReadable : Bool
  pendingVerifyExit : Nat
  currentKeyReadable : Bool
  currentVerifyExit : Nat
  composCert : Option StoredCert
  currentPubKeyBytes : Bytes
  certCreateOk : Bool
deriving DecidableEq, Repr

/-- Embedding of `startCompOsAndVerifyKey` (odsign_main.cpp:211): false
when the instance's public key file is unreadable, otherwise true
exactly when the verifier subprocess exits 0. -/
def startCompOsAndVerifyKey (env : CompOsKeyEnv) (inst : CompOsInstance) : Bool :=
  let isCurrent : Bool := inst == CompOsInstance.kCurrent
  let readable : Bool :=
    if isCurrent then env.currentKeyReadable else env.pendingKeyReadable
  if !readable then false
  else
    (if isCurrent then env.currentVerifyExit else env.pendingVerifyExit) == 0

/-- Result of `verifyCompOsKey` plus an execution trace: whether the
cached certificate was consulted, whether current attestation was
invoked, and whether a new leaf certificate was written. -/
structure CompOsKeyResult where
  result : Except String Bytes
  consultedCert : Bool
  invokedCurrent : Bool
  wroteCert : Bool
deriving Repr

/-- Tail of `verifyCompOsKey` once a live attestation has succeeded
(odsign_main.cpp:260): read the current public key file, fail if it is
empty, then mint and persist the new leaf certificate, failing when
certificate creation fails. -/
def verifyCompOsKeyTail (env : CompOsKeyEnv)
    (consulted invokedCur : Bool) : CompOsKeyResult :=
  if env.currentPubKeyBytes.isEmpty then
    { result := .error "Failed to read CompOs key.", consultedCert := consulted,
      invokedCurrent := invokedCur, wroteCert := false }
  else if !env.certCreateOk then
    { result := .error "Failed to create CompOs cert", consultedCert := consulted,
      invokedCurrent := invokedCur, wroteCert := false }
  else
    { result := .ok env.currentPubKeyBytes, consultedCert := consulted,
      invokedCurrent := invokedCur, wroteCert := true }

/-- Embedding of `verifyCompOsKey` (odsign_main.cpp:229): the ordered
fallback chain pending attestation, cached certificate, current
attestation, with the first success winning. -/
def verifyCompOsKey (key : SigningKey) (env : CompOsKeyEnv) : CompOsKeyResult :=
  if startCompOsAndVerifyKey env CompOsInstance.kPending then
    verifyCompOsKeyTail env false false
  else
    match extractRsaPublicKeyFromLeafCert key env.composCert kCompOsSubjectCn with
    | .ok existingKey =>
      { result := .ok existingKey, consultedCert := true,
        invokedCurrent := false, wroteCert := false }
    | .error _ =>
      if startCompOsAndVerifyKey env CompOsInstance.kCurrent then
        verifyCompOsKeyTail env true true
      else
        { result := .error "No valid CompOs key present.", consultedCert := true,
          invokedCurrent := true, wroteCert := false }

/-- C2: the trust paths are tried in order with the first success
winning.  When pending attestation fails but the cached certificate
loads, verifies under the signing key's public key and carries the
expected subject CN, `verifyCompOsKey` returns the certificate's
embedded public key immediately, without invoking current attestation
and without writing a new certificate; when pending attestation
succeeds the cached certificate is never consulted and current
attestation never invoked; and when all three paths fail the result is
the "No valid CompOs key present." error. -/
theorem verifyCompOsKey_fallback_order (key : SigningKey) (env : CompOsKeyEnv)
    (c : StoredCert) :
    (startCompOsAndVerifyKey env .kPending = false →
      env.composCert = some c → c.signerPub = key.pub →
      c.info.subjectCn = kCompOsSubjectCn →
      verifyCompOsKey key env =
        { result := .ok c.info.subjectRsaPublicKey, consultedCert := true,
          invokedCurrent := false, wroteCert := false }) ∧
    (startCompOsAndVerifyKey env .kPending = true →
      (verifyCompOsKey key env).consultedCert = false ∧
      (verifyCompOsKey key env).invokedCurrent = false) ∧
    (startCompOsAndVerifyKey env .kPending = false →
      (extractRsaPublicKeyFromLeafCert key env.composCert
        kCompOsSubjectCn).isOk = false →
      startCompOsAndVerifyKey env .kCurrent = false →
      (verifyCompOsKey key env).result = .error "No valid CompOs key present.") := by
  refine ⟨?_, ?_, ?_⟩
  · intro hp hc hsig hcn
    have hx : extractRsaPublicKeyFromLeafCert key env.composCert kCompOsSubjectCn
        = .ok c.info.subjectRsaPublicKey := by
      simp [extractRsaPublicKeyFromLeafCert, verifyAndExtractCertInfoFromX509,
        hc, hsig, hcn]
    simp [verifyCompOsKey, hp, hx]
  · intro hp
    simp only [verifyCompOsKey, hp, if_true]
    unfold verifyCompOsKeyTail
    split
    · exact ⟨rfl, rfl⟩
    · split
      · exact ⟨rfl, rfl⟩
      · exact ⟨rfl, rfl⟩
  · intro hp hx hcur
    cases he : extractRsaPublicKeyFromLeafCert key env.composCert kCompOsSubjectCn with
    | ok v => rw [he] at hx; simp [Except.isOk, Except.toBool] at hx
    | error e => simp [verifyCompOsKey, hp, he, hcur]

/-- Witness for C2: a cached-certificate-only environment takes the fast
path, a pending-success environment skips the certificate, and an
environment with no working path fails. -/
theorem verifyCompOsKey_fallback_order_witness :
    verifyCompOsKey ⟨[1]⟩
      ⟨false, 0, true, 1, some ⟨⟨kCompOsSubjectCn, [9]⟩, [1]⟩, [9], true⟩ =
      { result := .ok [9], consultedCert := true,
        invokedCurrent := false, wroteCert := false } ∧
    ((verifyCompOsKey ⟨[1]⟩ ⟨true, 0, true, 1, none, [9], true⟩).consultedCert
        = false ∧
      (verifyCompOsKey ⟨[1]⟩ ⟨true, 0, true, 1, none, [9], true⟩).invokedCurrent
        = false) ∧
    (verifyCompOsKey ⟨[1]⟩ ⟨false, 0, true, 1, none, [9], true⟩).result =
      .error "No valid CompOs key present." := by
  refine ⟨?_, ?_, ?_⟩
  · exact (verifyCompOsKey_fallback_order ⟨[1]⟩
      ⟨false, 0, true, 1, some ⟨⟨kCompOsSubjectCn, [9]⟩, [1]⟩, [9], true⟩
      ⟨⟨kCompOsSubjectCn, [9]⟩, [1]⟩).1 (by decide) rfl rfl rfl
  · exact (verifyCompOsKey_fallback_order ⟨[1]⟩
      ⟨true, 0, true, 1, none, [9], true⟩ ⟨⟨kCompOsSubjectCn, [9]⟩, [1]⟩).2.1
      (by decide)
  · exact (verifyCompOsKey_fallback_order ⟨[1]⟩
      ⟨false, 0, true, 1, none, [9], true⟩ ⟨⟨kCompOsSubjectCn, [9]⟩, [1]⟩).2.2
      (by decide) (by decide) (by decide)

/-- C5 counterexample: pending attestation succeeds and the current
public key file is non-empty, but certificate creation fails;
`verifyCompOsKey` then returns an error instead of the obtained public
key, so the certificate-creation failure DOES invalidate the key for
this boot. -/
theorem verifyCompOsKey_certFailure_cex :
    (verifyCompOsKey ⟨[1]⟩ ⟨true, 0, true, 0, none, [5], false⟩).result =
      .error "Failed to create CompOs cert" ∧
    (verifyCompOsKey ⟨[1]⟩ ⟨true, 0, true, 0, none, [5], false⟩).result ≠
      .ok [5] := by
  constructor
  · rfl
  · intro h
    have h2 : (Except.error "Failed to create CompOs cert" : Except String Bytes)
        = .ok [5] := h
    exact Except.noConfusion h2

/-- C5 (amended): after a successful live attestation (pending or
current) and a non-empty current public key file, failure to create and
persist the new leaf certificate makes `verifyCompOsKey` itself return
an error: the already-obtained key is not returned for this boot, and no
certificate is written. -/
theorem verifyCompOsKey_certFailure (key : SigningKey) (env : CompOsKeyEnv)
    (hlive : startCompOsAndVerifyKey env .kPending = true ∨
      (startCompOsAndVerifyKey env .kPending = false ∧
        (extractRsaPublicKeyFromLeafCert key env.composCert
          kCompOsSubjectCn).isOk = false ∧
        startCompOsAndVerifyKey env .kCurrent = true))
    (hkey : env.currentPubKeyBytes ≠ [])
    (hcert : env.certCreateOk = false) :
    (verifyCompOsKey key env).result = .error "Failed to create CompOs cert" ∧
    (verifyCompOsKey key env).wroteCert = false := by
  have htail : ∀ consulted invokedCur : Bool,
      (verifyCompOsKeyTail env consulted invokedCur).result =
        .error "Failed to create CompOs cert" ∧
      (verifyCompOsKeyTail env consulted invokedCur).wroteCert = false := by
    intro consulted invokedCur
    have hne : env.currentPubKeyBytes.isEmpty = false := by
      cases hcl : env.currentPubKeyBytes with
      | nil => exact absurd hcl hkey
      | cons a l => rfl
    simp [verifyCompOsKeyTail, hne, hcert]
  rcases hlive with hp | ⟨hp, hx, hcur⟩
  · simp only [verifyCompOsKey, hp, if_true]
    exact htail false false
  · cases he : extractRsaPublicKeyFromLeafCert key env.composCert kCompOsSubjectCn with
    | ok v => rw [he] at hx; simp [Except.isOk, Except.toBool] at hx
    | error e =>
      simp only [verifyCompOsKey, hp, he, hcur, Bool.false_eq_true, if_false, if_true]
      exact htail true true

/-- Witness for C5 (amended): pending attestation succeeds, yet with
certificate creation failing the function errors out. -/
theorem verifyCompOsKey_certFailure_witness :
    (verifyCompOsKey ⟨[2]⟩ ⟨true, 0, false, 1, none, [6], false⟩).result =
      .error "Failed to create CompOs cert" ∧
    (verifyCompOsKey ⟨[2]⟩ ⟨true, 0, false, 1, none, [6], false⟩).wroteCert
      = false :=
  verifyCompOsKey_certFailure ⟨[2]⟩ ⟨true, 0, false, 1, none, [6], false⟩
    (Or.inl (by decide)) (by decide) rfl

/-- A directory on disk: absent, or present with a list of entries. -/
inductive DirState where
  | absent
  | present (files : List Nat)
deriving DecidableEq, Repr

/-- Embedding of `directoryHasContent` (odsign_main.cpp:112): the path
is a directory and is not empty. -/
def directoryHasContent : DirState → Bool
  | .absent => false
  | .present files => !files.isEmpty

/-- The live artifacts directory and the CompOs pending artifacts
directory. -/
structure ArtFs where
  art : DirState
  pending : DirState
deriving DecidableEq, Repr

/-- Oracle environment for `checkCompOsPendingArtifacts`: the results of
the first and second `odrefresh --check` invocations, success of the
promotion rename, the result of `verifyAllFilesUsingCompOs` under the
CompOs key, and failure injections for the nested `persistDigests`. -/
structure PendingEnv where
  check1 : ExitCode
  renameOk : Bool
  check2 : ExitCode
  composVerify : Except String DigestMap
  persist : PersistEnv
deriving Repr

/-- Output of `checkCompOsPendingArtifacts`: odrefresh status, the
`digests_verified` out-parameter, and the final directory and manifest
file states. -/
structure PendingCheckOut where
  status : ExitCode
  digestsVerified : Bool
  fs : ArtFs
  ofs : OdsignFs
deriving Repr

/-- Embedding of `checkCompOsPendingArtifacts` (odsign_main.cpp:457).
The `compos_key` argument only feeds `verifyAllFilesUsingCompOs`, which
is the `composVerify` oracle here.  `dv` is the caller's
`digests_verified` flag (written only on full success). -/
def checkCompOsPendingArtifacts (key : SigningKey) (env : PendingEnv)
    (fs : ArtFs) (ofs : OdsignFs) (dv : Bool) : PendingCheckOut :=
  if !directoryHasContent fs.pending then
    ⟨.kCompilationRequired, dv, fs, ofs⟩
  else
    if env.check1 ≠ .kCompilationRequired then
      if env.check1 = .kOkay then
        ⟨env.check1, dv, { fs with pending := .absent }, ofs⟩
      else ⟨env.check1, dv, fs, ofs⟩
    else
      let fs1 : ArtFs := { fs with art := .absent }
      if !env.renameOk then
        ⟨.kCompilationRequired, dv, { fs1 with pending := .absent }, ofs⟩
      else
        let fs2 : ArtFs := { art := fs1.pending, pending := .absent }
        if env.check2 ≠ .kOkay then ⟨env.check2, dv, fs2, ofs⟩
        else
          match env.composVerify with
          | .ok digests =>
            let pr := persistDigests digests key env.persist ofs
            if pr.1.isOk then ⟨.kOkay, true, fs2, pr.2⟩
            else ⟨.kCompilationRequired, dv, { fs2 with art := .absent }, pr.2⟩
          | .error _ =>
            ⟨.kCompilationRequired, dv, { fs2 with art := .absent }, ofs⟩

/-- C4: `checkCompOsPendingArtifacts` returns `kCompilationRequired`
when the pending directory is absent or empty; otherwise, when the check
of the current artifacts returns anything other than
`kCompilationRequired`, that result is returned unchanged with the live
artifacts untouched, and in the `kOkay` case the pending directory is
deleted — a non-empty pending directory is never adopted over current
artifacts that already check as okay. -/
theorem checkCompOsPendingArtifacts_precedence (key : SigningKey)
    (env : PendingEnv) (fs : ArtFs) (ofs : OdsignFs) (dv : Bool) :
    (directoryHasContent fs.pending = false →
      checkCompOsPendingArtifacts key env fs ofs dv =
        ⟨.kCompilationRequired, dv, fs, ofs⟩) ∧
    (directoryHasContent fs.pending = true →
      env.check1 ≠ .kCompilationRequired →
      (checkCompOsPendingArtifacts key env fs ofs dv).status = env.check1 ∧
      (checkCompOsPendingArtifacts key env fs ofs dv).digestsVerified = dv ∧
      (checkCompOsPendingArtifacts key env fs ofs dv).fs.art = fs.art ∧
      (env.check1 = .kOkay →
        (checkCompOsPendingArtifacts key env fs ofs dv).fs.pending = .absent) ∧
      (env.check1 ≠ .kOkay →
        (checkCompOsPendingArtifacts key env fs ofs dv).fs = fs)) := by
  constructor
  · intro h
    simp [checkCompOsPendingArtifacts, h]
  · intro h h1
    by_cases hok : env.check1 = ExitCode.kOkay
    · simp [checkCompOsPendingArtifacts, h, h1, hok]
    · simp [checkCompOsPendingArtifacts, h, h1, hok]

/-- Witness for C4: an empty pending directory, and a non-empty pending
directory with current artifacts already okay. -/
theorem checkCompOsPendingArtifacts_precedence_witness :
    checkCompOsPendingArtifacts ⟨[1]⟩
      ⟨.kOkay, true, .kOkay, .error "x", ⟨true, true, true⟩⟩
      ⟨.present [3], .present []⟩ ⟨none, none⟩ false =
      ⟨.kCompilationRequired, false, ⟨.present [3], .present []⟩,
        ⟨none, none⟩⟩ ∧
    (checkCompOsPendingArtifacts ⟨[1]⟩
      ⟨.kOkay, true, .kOkay, .error "x", ⟨true, true, true⟩⟩
      ⟨.present [3], .present [2]⟩ ⟨none, none⟩ false).status = .kOkay ∧
    (checkCompOsPendingArtifacts ⟨[1]⟩
      ⟨.kOkay, true, .kOkay, .error "x", ⟨true, true, true⟩⟩
      ⟨.present [3], .present [2]⟩ ⟨none, none⟩ false).fs.art = .present [3] ∧
    (checkCompOsPendingArtifacts ⟨[1]⟩
      ⟨.kOkay, true, .kOkay, .error "x", ⟨true, true, true⟩⟩
      ⟨.present [3], .present [2]⟩ ⟨none, none⟩ false).fs.pending = .absent := by
  have h1 := (checkCompOsPendingArtifacts_precedence ⟨[1]⟩
    ⟨.kOkay, true, .kOkay, .error "x", ⟨true, true, true⟩⟩
    ⟨.present [3], .present []⟩ ⟨none, none⟩ false).1 (by decide)
  have h2 := (checkCompOsPendingArtifacts_precedence ⟨[1]⟩
    ⟨.kOkay, true, .kOkay, .error "x", ⟨true, true, true⟩⟩
    ⟨.present [3], .present [2]⟩ ⟨none, none⟩ false).2 (by decide) (by decide)
  exact ⟨h1, h2.1, h2.2.2.1, h2.2.2.2.1 rfl⟩

/-- C3: once current artifacts are stale and promotion is under way,
every enumerated failure ends in `kCompilationRequired` with no
partially-trusted artifact set left: a failed rename deletes the pending
directory (the live directory was already removed), and after a
successful promotion that re-checks okay, a CompOs verification failure
or a digest-persistence failure deletes the live artifacts directory
entirely. -/
theorem checkCompOsPendingArtifacts_failure_rollback (key : SigningKey)
    (env : PendingEnv) (fs : ArtFs) (ofs : OdsignFs) (dv : Bool)
    (hpend : directoryHasContent fs.pending = true)
    (hstale : env.check1 = .kCompilationRequired) :
    (env.renameOk = false →
      (checkCompOsPendingArtifacts key env fs ofs dv).status =
        .kCompilationRequired ∧
      (checkCompOsPendingArtifacts key env fs ofs dv).fs.pending = .absent ∧
      (checkCompOsPendingArtifacts key env fs ofs dv).fs.art = .absent) ∧
    (env.renameOk = true → env.check2 = .kOkay →
      (∀ e, env.composVerify = .error e →
        (checkCompOsPendingArtifacts key env fs ofs dv).status =
          .kCompilationRequired ∧
        (checkCompOsPendingArtifacts key env fs ofs dv).fs.art = .absent ∧
        (checkCompOsPendingArtifacts key env fs ofs dv).fs.pending = .absent) ∧
      (∀ digests, env.composVerify = .ok digests →
        (persistDigests digests key env.persist ofs).1.isOk = false →
        (checkCompOsPendingArtifacts key env fs ofs dv).status =
          .kCompilationRequired ∧
        (checkCompOsPendingArtifacts key env fs ofs dv).fs.art = .absent ∧
        (checkCompOsPendingArtifacts key env fs ofs dv).fs.pending = .absent)) := by
  constructor
  · intro hr
    simp [checkCompOsPendingArtifacts, hpend, hstale, hr]
  · intro hr h2
    constructor
    · intro e he
      simp [checkCompOsPendingArtifacts, hpend, hstale, hr, h2, he]
    · intro digests hd hp
      simp [checkCompOsPendingArtifacts, hpend, hstale, hr, h2, hd, hp]

/-- Witness for C3: a failing rename, a failing CompOs verification, and
a failing persistence, each on a stale current artifact set. -/
theorem checkCompOsPendingArtifacts_failure_rollback_witness :
    (checkCompOsPendingArtifacts ⟨[1]⟩
      ⟨.kCompilationRequired, false, .kOkay, .ok [], ⟨true, true, true⟩⟩
      ⟨.present [3], .present [2]⟩ ⟨none, none⟩ false).status =
        .kCompilationRequired ∧
    (checkCompOsPendingArtifacts ⟨[1]⟩
      ⟨.kCompilationRequired, true, .kOkay, .error "bad", ⟨true, true, true⟩⟩
      ⟨.present [3], .present [2]⟩ ⟨none, none⟩ false).fs.art = .absent ∧
    (checkCompOsPendingArtifacts ⟨[1]⟩
      ⟨.kCompilationRequired, true, .kOkay, .ok [], ⟨false, true, true⟩⟩
      ⟨.present [3], .present [2]⟩ ⟨none, none⟩ false).fs.art = .absent := by
  have h1 := (checkCompOsPendingArtifacts_failure_rollback ⟨[1]⟩
    ⟨.kCompilationRequired, false, .kOkay, .ok [], ⟨true, true, true⟩⟩
    ⟨.present [3], .present [2]⟩ ⟨none, none⟩ false (by decide) rfl).1 rfl
  have h2 := ((checkCompOsPendingArtifacts_failure_rollback ⟨[1]⟩
    ⟨.kCompilationRequired, true, .kOkay, .error "bad", ⟨true, true, true⟩⟩
    ⟨.present [3], .present [2]⟩ ⟨none, none⟩ false (by decide) rfl).2 rfl
    rfl).1 "bad" rfl
  have h3 := ((checkCompOsPendingArtifacts_failure_rollback ⟨[1]⟩
    ⟨.kCompilationRequired, true, .kOkay, .ok [], ⟨false, true, true⟩⟩
    ⟨.present [3], .present [2]⟩ ⟨none, none⟩ false (by decide) rfl).2 rfl
    rfl).2 [] rfl rfl
  exact ⟨h1.1, h2.2.1, h3.2.1⟩

/-- Build-time constant `kUseCompOs` (odsign_main.cpp:60). -/
def kUseCompOs : Bool := true

/-- The `ENOENT` errno value. -/
def ENOENT : Nat := 2

/-- The boot-status properties `main` can set: `odsign.key.done`,
`odsign.verification.success`, `odsign.verification.done`, `ctl.stop`. -/
structure Props where
  keyDone : Option String
  verificationStatus : Option String
  verificationDone : Option String
  stopService : Option String
deriving DecidableEq, Repr

/-- State threaded through `main`: the two artifact directories, the
property store, the number of times the cleanup guard has fired, and
whether `verifyArtifacts` was invoked. -/
structure MState where
  art : DirState
  pending : DirState
  props : Props
  guardFires : Nat
  verifyArtifactsRan : Bool
deriving DecidableEq, Repr

/-- Effect of `errorScopeGuard` (odsign_main.cpp:524): remove both
artifact directories, set key-done to "1", set the verification status
to the error value "0", set verification-done to "1", and request the
odsign service stop. -/
def runGuard (s : MState) : MState :=
  { s with
    art := .absent
    pending := .absent
    props := { keyDone := some "1", verificationStatus := some "0",
               verificationDone := some "1", stopService := some "odsign" }
    guardFires := s.guardFires + 1 }

/-- The success-path epilogue (odsign_main.cpp:646): the guard is
disarmed (so `guardFires` is untouched), then key-done, the success
status "1", verification-done and the service stop are set. -/
def successEpilogue (s : MState) : MState :=
  { s with props := { keyDone := some "1", verificationStatus := some "1",
                      verificationDone := some "1", stopService := some "odsign" } }

/-- Oracle environment for one run of `main`: the property and
filesystem probes, and the outcome of each protocol step. -/
structure MainEnv where
  apexUpdatable : Bool
  keystoreOk : Bool
  fsVeritySupported : Bool
  composPresent : Bool
  debugBuild : Bool
  rootCertVerifyOk : Bool
  createCertOk : Bool
  addCertOk : Bool
  compOsKeyOk : Bool
  pendingCheckStatus : ExitCode
  pendingCheckVerified : Bool
  compileResult : ExitCode
  artAccess : Option Nat
  verifyArtifactsOk : Bool
  digestsOk : Bool
  persistOk : Bool
deriving DecidableEq, Repr

/-- The odrefresh outcome and `digests_verified` flag after the artifact
resolution phase of `main` (odsign_main.cpp:581): the CompOs path runs
only when eligible and its key verified; a still-`kCompilationRequired`
status triggers the direct compiler invocation. -/
def resolvedOutcome (env : MainEnv) : ExitCode × Bool :=
  let useCompOs := kUseCompOs && env.fsVeritySupported && env.composPresent
    && env.debugBuild
  let stDv : ExitCode × Bool :=
    if useCompOs && env.compOsKeyOk then
      (env.pendingCheckStatus, env.pendingCheckVerified)
    else (.kCompilationRequired, false)
  let st1 := if stDv.1 = .kCompilationRequired then env.compileResult else stDv.1
  (st1, stDv.2)

/-- The "artifacts present" probe after an `kOkay` outcome
(odsign_main.cpp:603): present when `access` succeeds or fails with any
errno other than `ENOENT`. -/
def artifactsPresentCheck : Option Nat → Bool
  | none => true
  | some e => e != ENOENT

/-- Embedding of `main` (odsign_main.cpp:521).  The cleanup guard is
registered before the updatable-APEX applicability check and disarmed
only at the end of the full-success path; every other exit runs
`runGuard` exactly once. -/
def mainRun (env : MainEnv) (art pending : DirState) (props : Props) :
    Int × MState :=
  let s0 : MState := ⟨art, pending, props, 0, false⟩
  if !env.apexUpdatable then (0, runGuard s0)
  else if !env.keystoreOk then (-1, runGuard s0)
  else if env.fsVeritySupported && !env.rootCertVerifyOk && !env.createCertOk then
    (-1, runGuard s0)
  else if env.fsVeritySupported && !env.addCertOk then
    (-1, runGuard s0)
  else
    let st1 := (resolvedOutcome env).1
    let dv := (resolvedOutcome env).2
    if st1 = .kOkay then
      if !dv && artifactsPresentCheck env.artAccess then
        let s1 : MState := { s0 with verifyArtifactsRan := true }
        if env.verifyArtifactsOk then (0, successEpilogue s1)
        else (-1, runGuard s1)
      else (0, successEpilogue s0)
    else if st1 = .kCompilationSuccess || st1 = .kCompilationFailed then
      if !env.digestsOk then (-1, runGuard s0)
      else if !env.persistOk then (-1, runGuard s0)
      else (0, successEpilogue s0)
    else (-1, runGuard s0)

/-- C1: the cleanup guard fires exactly once on every exit path except
full success — including the "updatable APEX unsupported" early exit,
which still returns status 0 — and firing removes both artifact
directories and sets key-done, the verification-error status "0",
verification-done, and the stop-service signal; the guard does not fire
only on the full-success path, whose epilogue sets the success
properties instead. -/
theorem main_cleanup_guard (env : MainEnv) (art pending : DirState)
    (props : Props) :
    ((mainRun env art pending props).2.guardFires =
      if (mainRun env art pending props).1 = 0 ∧ env.apexUpdatable = true
      then 0 else 1) ∧
    ((mainRun env art pending props).2.guardFires = 1 →
      (mainRun env art pending props).2.art = .absent ∧
      (mainRun env art pending props).2.pending = .absent ∧
      (mainRun env art pending props).2.props =
        ⟨some "1", some "0", some "1", some "odsign"⟩) ∧
    (env.apexUpdatable = false →
      (mainRun env art pending props).1 = 0 ∧
      (mainRun env art pending props).2.guardFires = 1) ∧
    ((mainRun env art pending props).2.guardFires = 0 →
      (mainRun env art pending props).2.props =
        ⟨some "1", some "1", some "1", some "odsign"⟩) := by
  have hneg : ((-1 : Int) = 0) = False := by
    simp
  cases happex : env.apexUpdatable with
  | false => simp [mainRun, happex, runGuard, hneg]
  | true =>
  cases hkey : env.keystoreOk with
  | false => simp [mainRun, happex, hkey, runGuard, hneg]
  | true =>
  cases hc1 : env.fsVeritySupported && !env.rootCertVerifyOk && !env.createCertOk with
  | true => simp [mainRun, happex, hkey, hc1, runGuard, hneg]
  | false =>
  cases hc2 : env.fsVeritySupported && !env.addCertOk with
  | true => simp [mainRun, happex, hkey, hc1, hc2, runGuard, hneg]
  | false =>
  cases hst : (resolvedOutcome env).1 with
  | kOkay =>
    cases hdv : (resolvedOutcome env).2 with
    | true =>
      simp [mainRun, happex, hkey, hc1, hc2, hst, hdv, successEpilogue]
    | false =>
      cases hap : artifactsPresentCheck env.artAccess with
      | false =>
        simp [mainRun, happex, hkey, hc1, hc2, hst, hdv, hap, successEpilogue]
      | true =>
        cases hv : env.verifyArtifactsOk with
        | true =>
          simp [mainRun, happex, hkey, hc1, hc2, hst, hdv, hap, hv,
            successEpilogue]
        | false =>
          simp [mainRun, happex, hkey, hc1, hc2, hst, hdv, hap, hv,
            runGuard, hneg]
  | kCompilationRequired =>
    simp [mainRun, happex, hkey, hc1, hc2, hst, runGuard, hneg]
  | kCompilationSuccess =>
    cases hd : env.digestsOk with
    | false => simp [mainRun, happex, hkey, hc1, hc2, hst, hd, runGuard, hneg]
    | true =>
      cases hp : env.persistOk with
      | false =>
        simp [mainRun, happex, hkey, hc1, hc2, hst, hd, hp, runGuard, hneg]
      | true =>
        simp [mainRun, happex, hkey, hc1, hc2, hst, hd, hp, successEpilogue]
  | kCompilationFailed =>
    cases hd : env.digestsOk with
    | false => simp [mainRun, happex, hkey, hc1, hc2, hst, hd, runGuard, hneg]
    | true =>
      cases hp : env.persistOk with
      | false =>
        simp [mainRun, happex, hkey, hc1, hc2, hst, hd, hp, runGuard, hneg]
      | true =>
        simp [mainRun, happex, hkey, hc1, hc2, hst, hd, hp, successEpilogue]
  | kCleanupFailed =>
    simp [mainRun, happex, hkey, hc1, hc2, hst, runGuard, hneg]
  | kUnexpected code =>
    simp [mainRun, happex, hkey, hc1, hc2, hst, runGuard, hneg]

/-- C9: after an `kOkay` outcome with digests not already verified,
digest verification runs when the artifacts directory is non-empty (an
existing directory is never reported as `ENOENT`), and also whenever the
access probe fails with any errno other than `ENOENT`; a failure of that
verification is fatal and fires the cleanup guard. -/
theorem main_okay_verification (env : MainEnv) (art pending : DirState)
    (props : Props)
    (happex : env.apexUpdatable = true) (hkey : env.keystoreOk = true)
    (hcert1 : (env.fsVeritySupported && !env.rootCertVerifyOk
      && !env.createCertOk) = false)
    (hcert2 : (env.fsVeritySupported && !env.addCertOk) = false)
    (hokay : (resolvedOutcome env).1 = .kOkay)
    (hdv : (resolvedOutcome env).2 = false) :
    ((∃ files, art = DirState.present files ∧ files ≠ []) →
      env.artAccess ≠ some ENOENT →
      (mainRun env art pending props).2.verifyArtifactsRan = true) ∧
    (∀ e, env.artAccess = some e → e ≠ ENOENT →
      (mainRun env art pending props).2.verifyArtifactsRan = true) ∧
    (env.artAccess ≠ some ENOENT → env.verifyArtifactsOk = false →
      (mainRun env art pending props).1 = -1 ∧
      (mainRun env art pending props).2.guardFires = 1) := by
  have hpresent : env.artAccess ≠ some ENOENT →
      artifactsPresentCheck env.artAccess = true := by
    intro hne
    cases ha : env.artAccess with
    | none => rfl
    | some e =>
      rw [ha] at hne
      have he : e ≠ ENOENT := fun hc => hne (by rw [hc])
      simp [artifactsPresentCheck, he]
  refine ⟨?_, ?_, ?_⟩
  · rintro ⟨files, hart, hne⟩ hacc
    simp only [mainRun, happex, hkey, hcert1, hcert2, hokay, hdv, hpresent hacc]
    cases hv : env.verifyArtifactsOk <;>
      simp [hv, runGuard, successEpilogue]
  · intro e hacc hne
    have h : env.artAccess ≠ some ENOENT := by
      rw [hacc]
      simp only [ne_eq, Option.some.injEq]
      exact hne
    simp only [mainRun, happex, hkey, hcert1, hcert2, hokay, hdv, hpresent h]
    cases hv : env.verifyArtifactsOk <;>
      simp [hv, runGuard, successEpilogue]
  · intro hacc hvfail
    simp [mainRun, happex, hkey, hcert1, hcert2, hokay, hdv, hpresent hacc,
      hvfail, runGuard]

/-- Witness for C1: on a device without updatable APEX the run exits 0
yet the guard has fired, removing both directories and setting the error
properties. -/
theorem main_cleanup_guard_witness :
    (mainRun ⟨false, true, true, true, true, true, true, true, true, .kOkay,
        false, .kOkay, none, true, true, true⟩ (.present [4]) (.present [5])
        ⟨none, none, none, none⟩).1 = 0 ∧
    (mainRun ⟨false, true, true, true, true, true, true, true, true, .kOkay,
        false, .kOkay, none, true, true, true⟩ (.present [4]) (.present [5])
        ⟨none, none, none, none⟩).2.guardFires = 1 ∧
    (mainRun ⟨false, true, true, true, true, true, true, true, true, .kOkay,
        false, .kOkay, none, true, true, true⟩ (.present [4]) (.present [5])
        ⟨none, none, none, none⟩).2.art = .absent ∧
    (mainRun ⟨false, true, true, true, true, true, true, true, true, .kOkay,
        false, .kOkay, none, true, true, true⟩ (.present [4]) (.present [5])
        ⟨none, none, none, none⟩).2.props =
      ⟨some "1", some "0", some "1", some "odsign"⟩ := by
  have h := main_cleanup_guard ⟨false, true, true, true, true, true, true,
    true, true, .kOkay, false, .kOkay, none, true, true, true⟩
    (.present [4]) (.present [5]) ⟨none, none, none, none⟩
  have he := h.2.2.1 rfl
  have hg := h.2.1 he.2
  exact ⟨he.1, he.2, hg.1, hg.2.2⟩

/-- Witness for C9: with an `kOkay` compile outcome, unverified digests
and the access probe failing with errno 13, verification runs, and its
failure exits nonzero with the guard fired. -/
theorem main_okay_verification_witness :
    (mainRun ⟨true, true, false, false, false, true, true, true, true,
        .kOkay, false, .kOkay, some 13, false, true, true⟩ (.present [1])
        .absent ⟨none, none, none, none⟩).2.verifyArtifactsRan = true ∧
    (mainRun ⟨true, true, false, false, false, true, true, true, true,
        .kOkay, false, .kOkay, some 13, false, true, true⟩ (.present [1])
        .absent ⟨none, none, none, none⟩).1 = -1 ∧
    (mainRun ⟨true, true, false, false, false, true, true, true, true,
        .kOkay, false, .kOkay, some 13, false, true, true⟩ (.present [1])
        .absent ⟨none, none, none, none⟩).2.guardFires = 1 := by
  have h := main_okay_verification ⟨true, true, false, false, false, true,
    true, true, true, .kOkay, false, .kOkay, some 13, false, true, true⟩
    (.present [1]) .absent ⟨none, none, none, none⟩ rfl rfl (by decide)
    (by decide) (by decide) (by decide)
  have hf := h.2.2 (by decide) rfl
  exact ⟨h.2.1 13 rfl (by decide), hf.1, hf.2⟩

end Odsign
